import Mathlib

/-!
Shallow embedding of `chat_export.py` (the "for English users" variant; the
Chinese variant differs only in display strings).  Python values that can occur
in the decoded JSON records are modelled by `JVal`; Python dictionaries are
association lists with unique keys.  String primitives used by the script
(`replace`, `split`, `strip`, `startswith`, `in`, `join`, f-string decimal
formatting) are re-implemented structurally over `List Char` so that all
definitions evaluate by kernel reduction.
-/

/-- A decoded JSON value as Python sees it.  Floats do not occur in the fields
the script inspects, so numbers are modelled as integers. -/
inductive JVal where
  | s : String → JVal
  | n : Int → JVal
  | b : Bool → JVal
  | null : JVal
  | arr : List JVal → JVal
  | obj : List (String × JVal) → JVal

/-- Python truthiness (`bool(v)`): empty string / 0 / False / None / empty
list / empty dict are falsy. -/
def truthy : JVal → Bool
  | .s str => str != ""
  | .n i => i != 0
  | .b v => v
  | .null => false
  | .arr l => !l.isEmpty
  | .obj kv => !kv.isEmpty

/-- Python `d.get(k)`: `None` when the key is absent. -/
def pyGet (kv : List (String × JVal)) (k : String) : JVal :=
  match kv.lookup k with
  | some v => v
  | none => .null

/-- Python `d.get(k, default)`. -/
def pyGetD (kv : List (String × JVal)) (k : String) (d : JVal) : JVal :=
  match kv.lookup k with
  | some v => v
  | none => d

/-- Python `a or b`: the first operand when truthy, otherwise the second. -/
def orJ (a b : JVal) : JVal :=
  if truthy a then a else b

/-- Python `v == lit` for a string literal `lit` (cross-type `==` is False). -/
def pyEqStr (v : JVal) (lit : String) : Bool :=
  match v with
  | .s t => t == lit
  | _ => false

/-- Python `v == lit` for an int literal; note `True == 1` and `False == 0`
hold in Python, so booleans compare equal to the matching integer. -/
def pyEqInt (v : JVal) (lit : Int) : Bool :=
  match v with
  | .n m => m == lit
  | .b x => (if x then (1 : Int) else 0) == lit
  | _ => false

/-- The normalizer's user-role test `role in ["1", 1, "user"]`. -/
def roleIsUser (r : JVal) : Bool :=
  pyEqStr r "1" || pyEqInt r 1 || pyEqStr r "user"

/-- The normalizer's assistant-role test `role in ["2", 2, "assistant"]`. -/
def roleIsAssistant (r : JVal) : Bool :=
  pyEqStr r "2" || pyEqInt r 2 || pyEqStr r "assistant"

/-- Successor on a little-endian decimal digit. -/
def incDigit : Char → Char
  | '0' => '1' | '1' => '2' | '2' => '3' | '3' => '4' | '4' => '5'
  | '5' => '6' | '6' => '7' | '7' => '8' | '8' => '9' | _ => '0'

/-- Increment a little-endian decimal digit string. -/
def incDigits : List Char → List Char
  | [] => ['1']
  | d :: ds => if d = '9' then '0' :: incDigits ds else incDigit d :: ds

/-- Little-endian decimal digits of a natural number (by iterated increment,
so that the definition reduces in the kernel). -/
def natDigitsLE : Nat → List Char
  | 0 => ['0']
  | n + 1 => incDigits (natDigitsLE n)

/-- Decimal rendering of a natural number, as Python's `str`/f-strings do. -/
def natToString (n : Nat) : String :=
  ⟨(natDigitsLE n).reverse⟩

/-- Decimal rendering of an integer. -/
def intToString (i : Int) : String :=
  if i < 0 then "-" ++ natToString i.natAbs else natToString i.toNat

mutual
/-- Python `repr` of a JSON-decoded value, as produced by `str(msg)` on a
dict.  Strings are rendered with single quotes (the script's substring
probes never involve strings containing quote characters). -/
def pyRepr : JVal → String
  | .s str => "'" ++ str ++ "'"
  | .n i => intToString i
  | .b true => "True"
  | .b false => "False"
  | .null => "None"
  | .arr l => "[" ++ pyReprElems l ++ "]"
  | .obj kv => "\x7b" ++ pyReprPairs kv ++ "\x7d"

/-- Comma-separated `repr`s of list elements. -/
def pyReprElems : List JVal → String
  | [] => ""
  | [v] => pyRepr v
  | v :: rest => pyRepr v ++ ", " ++ pyReprElems rest

/-- Comma-separated `'key': repr(value)` pairs of a dict. -/
def pyReprPairs : List (String × JVal) → String
  | [] => ""
  | [(k, v)] => "'" ++ k ++ "': " ++ pyRepr v
  | (k, v) :: rest => "'" ++ k ++ "': " ++ pyRepr v ++ ", " ++ pyReprPairs rest
end

/-- Python `str(v)`: identical to `repr` except on strings. -/
def pyStr : JVal → String
  | .s str => str
  | v => pyRepr v

/-- `beginsWith pat l` : `pat` is an initial segment of `l`. -/
def beginsWith : List Char → List Char → Bool
  | [], _ => true
  | _ :: _, [] => false
  | p :: ps, x :: xs => p == x && beginsWith ps xs

/-- Python `pat in hay` on character lists. -/
def containsSub (pat : List Char) : List Char → Bool
  | [] => beginsWith pat []
  | x :: xs => beginsWith pat (x :: xs) || containsSub pat xs

/-- Python `pat in hay` on strings. -/
def strContainsB (hay pat : String) : Bool :=
  containsSub pat.data hay.data

/-- The whitespace characters removed by Python's `str.strip()`. -/
def isPySpace (c : Char) : Bool :=
  c == ' ' || c == '\t' || c == '\n' || c == '\r' || c == '\x0b' || c == '\x0c'

/-- Drop leading Python whitespace. -/
def dropPySpace : List Char → List Char
  | [] => []
  | x :: xs => if isPySpace x then dropPySpace xs else x :: xs

/-- Python `str.strip()` on character lists. -/
def pyStrip (l : List Char) : List Char :=
  (dropPySpace (dropPySpace l).reverse).reverse

/-!  The per-message normalization of `read_chat_history` (lines 337-391). -/

/-- A normalized message: the resolved role value and the resolved content. -/
structure Message where
  role : JVal
  content : JVal

/-- The running per-session state of the normalization loop: the kept
messages, the two counters and the `current_role` cursor. -/
structure SessState where
  messages : List Message
  user_questions : Nat
  chat_count : Nat
  current_role : Option String

/-- Initial per-session state. -/
def initState : SessState :=
  { messages := [], user_questions := 0, chat_count := 0, current_role := none }

/-- Role resolution:
`msg.get('role') or msg.get('type') or ('user' if msg.get('isUser') else 'assistant')`. -/
def resolveRole (kv : List (String × JVal)) : JVal :=
  orJ (pyGet kv "role")
    (orJ (pyGet kv "type")
      (if truthy (pyGet kv "isUser") then .s "user" else .s "assistant"))

/-- Content resolution:
`msg.get('content') or msg.get('text') or msg.get('message', '')`. -/
def resolveContent (kv : List (String × JVal)) : JVal :=
  orJ (pyGet kv "content") (orJ (pyGet kv "text") (pyGetD kv "message" (.s "")))

/-- The attachment heuristic `has_attachment` (lines 349-361): explicit
attachment-like fields, or one of five substrings occurring in `str(msg)`. -/
def hasAttachment (kv : List (String × JVal)) : Bool :=
  truthy (pyGet kv "attachments") ||
  truthy (pyGet kv "files") ||
  truthy (pyGet kv "images") ||
  truthy (pyGet kv "additional_data") ||
  truthy (pyGet kv "terminal_selections") ||
  truthy (pyGet kv "terminalSelections") ||
  strContainsB (pyRepr (.obj kv)) "terminal" ||
  strContainsB (pyRepr (.obj kv)) "additional_data" ||
  strContainsB (pyRepr (.obj kv)) "attachments" ||
  strContainsB (pyRepr (.obj kv)) "file_contents" ||
  strContainsB (pyRepr (.obj kv)) "attached_files"

/-- `not content or content.strip() == ''`: true when the resolved content is
falsy or a whitespace-only string; calling `.strip()` on a truthy non-string
raises (modelled as `error`), which aborts the whole record. -/
def emptyish (c : JVal) : Except Unit Bool :=
  if truthy c then
    match c with
    | .s str => .ok (pyStrip str.data == [])
    | _ => .error ()
  else .ok true

/-- The fixed placeholder substituted for empty user messages that carry an
attachment marker. -/
def placeholderText : String := "(User inserted an attachment📎)"

/-- The content finally stored for a message: the resolved content, or the
placeholder when it is empty-ish, the record shows an attachment marker and
the role is a user role (line 366-367). -/
def finalContent (kv : List (String × JVal)) : Except Unit JVal :=
  match emptyish (resolveContent kv) with
  | .error e => .error e
  | .ok e =>
    if e && hasAttachment kv && roleIsUser (resolveRole kv) then .ok (.s placeholderText)
    else .ok (resolveContent kv)

/-- Appending a kept message and updating the counters (lines 371-385):
a user message bumps both counters and sets the cursor; an assistant message
bumps `chat_count` only when the cursor is `"user"`; any other (truthy) role
is appended without touching counters or cursor. -/
def stepKeep (st : SessState) (role content : JVal) : SessState :=
  let msgs := st.messages ++ [{ role := role, content := content }]
  if roleIsUser role then
    { messages := msgs, user_questions := st.user_questions + 1,
      chat_count := st.chat_count + 1, current_role := some "user" }
  else if roleIsAssistant role then
    { messages := msgs, user_questions := st.user_questions,
      chat_count := if st.current_role = some "user" then st.chat_count + 1
                    else st.chat_count,
      current_role := some "assistant" }
  else
    { st with messages := msgs }

/-- Processing one raw conversation entry (lines 337-391): non-dict entries
are skipped; for dict entries the role is resolved (the `if role:` guard),
the content is resolved with the placeholder rule, and the message is kept
only when the final content is truthy. -/
def stepMsg (st : SessState) (m : JVal) : Except Unit SessState :=
  match m with
  | .obj kv =>
    if truthy (resolveRole kv) then
      match finalContent kv with
      | .error e => .error e
      | .ok content =>
        if truthy content then .ok (stepKeep st (resolveRole kv) content)
        else .ok st
    else .ok st
  | _ => .ok st

/-- The message loop; the first raised exception aborts the record. -/
def processMsgs (st : SessState) : List JVal → Except Unit SessState
  | [] => .ok st
  | m :: rest =>
    match stepMsg st m with
    | .error e => .error e
    | .ok st' => processMsgs st' rest

/-- Running the loop from the fresh per-session state. -/
def processConversation (conv : List JVal) : Except Unit SessState :=
  processMsgs initState conv

/-- A reconstructed Session as stored in `all_chat_sessions`. -/
structure Session where
  composerId : JVal
  version : JVal
  title : JVal
  messages : List Message
  user_questions : Nat
  chat_count : Nat

/-- `for msg in conversation`: lists iterate their elements, strings iterate
their characters, dicts iterate their keys, anything else raises. -/
def convIter : JVal → Except Unit (List JVal)
  | .arr l => .ok l
  | .s str => .ok (str.data.map fun c => JVal.s ⟨[c]⟩)
  | .obj kv => .ok (kv.map fun p => JVal.s p.1)
  | _ => .error ()

/-- Processing one decoded `composerData` record (lines 319-397): build the
session shell, run the message loop, and keep the session only when at least
one message was kept.  Any exception makes the record be skipped (`none`). -/
def readRecord (data : List (String × JVal)) : Option Session :=
  match convIter (pyGetD data "conversation" (.arr [])) with
  | .error _ => none
  | .ok conv =>
    match processConversation conv with
    | .error _ => none
    | .ok st =>
      if st.messages.isEmpty then none
      else some
        { composerId := pyGetD data "composerId" (.s "")
          version := pyGetD data "_v" (.n 0)
          title := orJ (pyGet data "title") (pyGetD data "name" (.s "Unnamed Session"))
          messages := st.messages
          user_questions := st.user_questions
          chat_count := st.chat_count }

/-!  The text-safety transform `process_code_blocks` (lines 241-268). -/

/-- Python `s.replace(c, rep)` for a single-character pattern. -/
def replaceChar (c : Char) (rep : List Char) : List Char → List Char
  | [] => []
  | x :: xs => if x == c then rep ++ replaceChar c rep xs else x :: replaceChar c rep xs

/-- Escape the three HTML metacharacters, `&` first (line 245). -/
def escapeHtml (text : String) : String :=
  ⟨replaceChar '>' "&gt;".data
    (replaceChar '<' "&lt;".data
      (replaceChar '&' "&amp;".data text.data))⟩

/-- Python `s.split(c)` for a single-character separator. -/
def splitOnNl : List Char → List (List Char)
  | [] => [[]]
  | x :: xs =>
    if x == '\n' then [] :: splitOnNl xs
    else
      match splitOnNl xs with
      | [] => [[x]]
      | y :: ys => (x :: y) :: ys

/-- `line.strip().startswith("```")`. -/
def isFenceLine (line : String) : Bool :=
  beginsWith "```".data (pyStrip line.data)

/-- Python `sep.join(parts)`. -/
def joinSep (sep : String) : List String → String
  | [] => ""
  | [x] => x
  | x :: y :: rest => x ++ sep ++ joinSep sep (y :: rest)

/-- Python `''.join(parts)`. -/
def concatAll : List String → String
  | [] => ""
  | x :: xs => x ++ concatAll xs

/-- The line scan of `process_code_blocks` (lines 252-266): fence lines
toggle the code-block state, code lines are accumulated with a trailing
newline, other lines pass through; a block is flushed as
`<pre><code>...</code></pre>` when its closing fence is seen, and an
unclosed block is flushed at end of input only if it accumulated anything. -/
def pcbLoop : List String → Bool → List String → List String → List String
  | [], inCode, code, acc =>
    if inCode && !code.isEmpty then
      acc ++ ["<pre><code>" ++ concatAll code ++ "</code></pre>"]
    else acc
  | line :: rest, inCode, code, acc =>
    if isFenceLine line then
      if inCode then
        pcbLoop rest false [] (acc ++ ["<pre><code>" ++ concatAll code ++ "</code></pre>"])
      else pcbLoop rest true code acc
    else if inCode then pcbLoop rest inCode (code ++ [line ++ "\n"]) acc
    else pcbLoop rest inCode code (acc ++ [line])

/-- `process_code_blocks` on a string: empty input short-circuits to `""`;
otherwise escape, split on newlines, scan, and join with `<br>`. -/
def processCodeBlocks (text : String) : String :=
  if text == "" then ""
  else
    joinSep "<br>"
      (pcbLoop ((splitOnNl (escapeHtml text).data).map fun l => (⟨l⟩ : String)) false [] [])

/-!  The transcript renderer `create_html_content` (lines 419-480). -/

/-- Python `len(v)` exists only for strings, lists and dicts; the renderer's
progress print calls `len(content_text)` on every message. -/
def pyHasLen : JVal → Bool
  | .s _ => true
  | .arr _ => true
  | .obj _ => true
  | _ => false

/-- `process_code_blocks` applied to a raw content value: falsy values take
the `if not text: return ""` shortcut, truthy non-strings raise at the first
`.replace` call. -/
def processCodeBlocksJ (v : JVal) : Except Unit String :=
  if truthy v then
    match v with
    | .s str => .ok (processCodeBlocks str)
    | _ => .error ()
  else .ok ""

/-- The renderer's user-role test `role == "1" or role == 1` (line 462);
note that unlike the normalizer it does NOT accept the string `"user"`. -/
def renderRoleIsUser (r : JVal) : Bool :=
  pyEqStr r "1" || pyEqInt r 1

/-- The renderer's assistant-role test `role == "2" or role == 2`. -/
def renderRoleIsAssistant (r : JVal) : Bool :=
  pyEqStr r "2" || pyEqInt r 2

/-- Rendering one kept message (lines 456-465): a user-role message becomes a
left-aligned `user-message` div, an assistant-role message a right-aligned
`assistant-message` div, and any other role produces nothing. -/
def renderMsg (m : Message) : Except Unit (Option String) :=
  if !pyHasLen m.content then .error ()
  else if renderRoleIsUser m.role then
    match processCodeBlocksJ m.content with
    | .error e => .error e
    | .ok t => .ok (some ("<div class=\"message user-message\">" ++ t ++ "</div>"))
  else if renderRoleIsAssistant m.role then
    match processCodeBlocksJ m.content with
    | .error e => .error e
    | .ok t => .ok (some ("<div class=\"message assistant-message\">" ++ t ++ "</div>"))
  else .ok none

/-- The `session_content` list of rendered message divs. -/
def sessionBlocks : List Message → Except Unit (List String)
  | [] => .ok []
  | m :: rest =>
    match renderMsg m with
    | .error e => .error e
    | .ok r =>
      match sessionBlocks rest with
      | .error e => .error e
      | .ok rs => .ok (match r with | some blk => blk :: rs | none => rs)

/-- The per-session `stats` string (lines 438-446). -/
def sessionStats (sess : Session) (mode : String) : String :=
  if mode == "current" || mode == "all" then
    if mode == "current" then "Total " ++ natToString sess.chat_count ++ " conversations"
    else "(Total " ++ natToString sess.chat_count ++ " conversations)"
  else "(Total " ++ natToString sess.user_questions ++ " user questions)"

/-- The per-session `header` string: the title is included for every mode
except `current`. -/
def sessionHeader (sess : Session) (mode : String) : String :=
  if mode == "current" || mode == "all" then
    if mode == "all" then pyStr sess.title ++ " " ++ sessionStats sess mode
    else sessionStats sess mode
  else pyStr sess.title ++ " " ++ sessionStats sess mode

/-- The f-string wrapping one session's header and message divs
(lines 468-473), with its exact whitespace. -/
def sessionBlockStr (header : String) (blocks : List String) : String :=
  "\n                <div class=\"chat-session\">\n                    <div class=\"chat-session-header\">"
    ++ header
    ++ "</div>\n                    "
    ++ concatAll blocks
    ++ "\n                </div>\n                "

/-- Rendering one session (lines 433-476): sessions with no messages and
sessions whose `session_content` came out empty are skipped. -/
def renderSession (sess : Session) (mode : String) : Except Unit (Option String) :=
  if sess.messages.isEmpty then .ok none
  else
    match sessionBlocks sess.messages with
    | .error e => .error e
    | .ok blocks =>
      if blocks.isEmpty then .ok none
      else .ok (some (sessionBlockStr (sessionHeader sess mode) blocks))

/-- The session loop, collecting the appended blocks in order. -/
def collectSessions (mode : String) : List Session → Except Unit (List String)
  | [] => .ok []
  | sess :: rest =>
    match renderSession sess mode with
    | .error e => .error e
    | .ok r =>
      match collectSessions mode rest with
      | .error e => .error e
      | .ok bs => .ok (match r with | some blk => blk :: bs | none => bs)

/-- The leading aggregate block emitted for modes `all` and `summary`
(lines 426-431), with its exact whitespace. -/
def totalStatsBlock (count : Nat) : String :=
  "\n            <div class=\"chat-session\">\n                <div class=\"chat-session-header\">Total: "
    ++ natToString count
    ++ " chat sessions</div>\n            </div>\n            "

/-- `create_html_content` (lines 419-480): optional aggregate block, the
per-session blocks, joined with a newline. -/
def createHtmlContent (sessions : List Session) (mode : String) : Except Unit String :=
  match collectSessions mode sessions with
  | .error e => .error e
  | .ok bs =>
    .ok (joinSep "\n"
      ((if mode == "all" || mode == "summary" then [totalStatsBlock sessions.length] else []) ++ bs))

/-!  The CLI dispatcher `main` (lines 626-654). -/

/-- The result of calling one of the four export functions: a normal return
carrying `Optional[str]`, or an exception escaping the call. -/
inductive ExportResult where
  | ok : Option String → ExportResult
  | raised : ExportResult

/-- The four accepted mode arguments. -/
def validModes : List String := ["current", "all", "summary", "current-summary"]

/-- The process exit status of `main`, given `sys.argv` and the behaviour of
the selected export function.  Invalid usage exits 1; an exception during
export is caught and exits 1; both the `some path` ("Export successful") and
the `none` ("Export failed: No chat records found") returns fall through the
end of `main`, so the process exits 0. -/
def mainExitCode (argv : List String) (runExport : String → ExportResult) : Nat :=
  if argv.length == 2 && validModes.contains (argv.getD 1 "") then
    match runExport (argv.getD 1 "") with
    | .raised => 1
    | .ok _ => 0
  else 1

/-!  The scratch-duplicate file lifecycle of `read_chat_history`
(lines 278-414), as explicit state passing over the set of files in the
working directory. -/

/-- How one candidate's extraction pass can end: a full pass, a pass hitting
a malformed record (caught in the record loop), a database-level exception
(caught by the per-candidate `except`), or `shutil.copy2` itself failing so
the scratch file is never created. -/
inductive ExtractOutcome where
  | success
  | recordError
  | dbError
  | copyFail
deriving DecidableEq

/-- `try: os.remove(p) except: pass` — removes `p` when present, silently
does nothing otherwise. -/
def osRemoveQuiet (fs : List String) (p : String) : List String :=
  fs.filter fun q => q != p

/-- One candidate's effect on the working directory (lines 281-414):
`copy2` creates the scratch duplicate (unless it fails), extraction touches
no files, and the `finally` block removes the scratch duplicate on every
exit path before the next candidate is taken up. -/
def processCandidate (fs : List String) (tmp : String) (outcome : ExtractOutcome) : List String :=
  match outcome with
  | .copyFail => osRemoveQuiet fs tmp
  | _ => osRemoveQuiet (tmp :: fs) tmp

/-- The candidate loop's effect on the working directory. -/
def readChatHistoryFS (cands : List (String × ExtractOutcome)) (fs : List String) : List String :=
  match cands with
  | [] => fs
  | (tmp, outcome) :: rest => readChatHistoryFS rest (processCandidate fs tmp outcome)

/-!  Auxiliary notions and concrete inputs used by the verification. -/

/-- `a` occurs as a contiguous substring of `b`. -/
def occursIn (a b : String) : Prop :=
  ∃ p q : List Char, b.data = p ++ a.data ++ q

/-- Unwrap a successful render result (used to name concrete outputs). -/
def exStringOf : Except Unit String → String
  | .ok s => s
  | .error _ => ""

/-- Unwrap a successful, non-skipped session block. -/
def optBlockOf : Except Unit (Option String) → String
  | .ok (some b) => b
  | _ => ""

/-- The three-message conversation `[user, assistant, assistant]`. -/
def c2m1 : JVal := .obj [("role", .s "user"), ("content", .s "q1")]

/-- First assistant message of the C2 conversation. -/
def c2m2 : JVal := .obj [("role", .s "assistant"), ("content", .s "a1")]

/-- Second assistant message of the C2 conversation. -/
def c2m3 : JVal := .obj [("role", .s "assistant"), ("content", .s "a2")]

/-- The C2 conversation. -/
def c2conv : List JVal := [c2m1, c2m2, c2m3]

/-- The loop state after the C2 conversation. -/
def c2state : SessState :=
  ⟨[⟨.s "user", .s "q1"⟩, ⟨.s "assistant", .s "a1"⟩, ⟨.s "assistant", .s "a2"⟩],
    1, 2, some "assistant"⟩

/-- A record whose only message carries the unknown role `"3"`. -/
def c3data : List (String × JVal) :=
  [("conversation", .arr [.obj [("role", .s "3"), ("content", .s "hi")]])]

/-- The session the code reconstructs from `c3data`: the unknown-role message
is kept. -/
def c3sess : Session :=
  ⟨.s "", .n 0, .s "Unnamed Session", [⟨.s "3", .s "hi"⟩], 0, 0⟩

/-- The raw dict of the unknown-role message. -/
def c3kv : List (String × JVal) := [("role", .s "3"), ("content", .s "hi")]

/-- The spec's attachment example record
`{"role": 1, "content": "", "attachments": ["x.png"]}`. -/
def c6kv : List (String × JVal) :=
  [("role", .n 1), ("content", .s ""), ("attachments", .arr [.s "x.png"])]

/-- A one-user-message record. -/
def c7data : List (String × JVal) :=
  [("conversation", .arr [.obj [("role", .s "user"), ("content", .s "hi")]])]

/-- The session reconstructed from `c7data`. -/
def c7sess : Session :=
  ⟨.s "", .n 0, .s "Unnamed Session", [⟨.s "user", .s "hi"⟩], 1, 1⟩

/-- A user-then-assistant record. -/
def c10data : List (String × JVal) :=
  [("conversation", .arr
    [.obj [("role", .s "user"), ("content", .s "q")],
     .obj [("role", .s "assistant"), ("content", .s "a")]])]

/-- The session reconstructed from `c10data`. -/
def c10sess : Session :=
  ⟨.s "", .n 0, .s "Unnamed Session",
    [⟨.s "user", .s "q"⟩, ⟨.s "assistant", .s "a"⟩], 1, 2⟩

/-- A session whose title contains an HTML metacharacter. -/
def c5sessRaw : Session :=
  ⟨.s "", .n 0, .s "a<b", [⟨.s "1", .s "<"⟩], 1, 1⟩

/-- A plainly titled session used to witness the amended title property. -/
def c5wSess : Session :=
  ⟨.s "", .n 0, .s "T", [⟨.s "1", .s "hi"⟩], 1, 1⟩

/-!  Helper lemmas. -/

theorem strData_append (a b : String) : (a ++ b).data = a.data ++ b.data := rfl

theorem occursIn_refl (a : String) : occursIn a a :=
  ⟨[], [], by simp⟩

theorem occursIn_append_left (p : String) {a b : String} (h : occursIn a b) :
    occursIn a (p ++ b) := by
  obtain ⟨u, v, hd⟩ := h
  exact ⟨p.data ++ u, v, by simp [strData_append, hd]⟩

theorem occursIn_append_right (q : String) {a b : String} (h : occursIn a b) :
    occursIn a (b ++ q) := by
  obtain ⟨u, v, hd⟩ := h
  exact ⟨u, v ++ q.data, by simp [strData_append, hd]⟩

theorem occursIn_trans {a b c : String} (h1 : occursIn a b) (h2 : occursIn b c) :
    occursIn a c := by
  obtain ⟨u, v, hd⟩ := h1
  obtain ⟨u', v', hd'⟩ := h2
  exact ⟨u' ++ u, v ++ v', by simp [hd', hd]⟩

theorem occursIn_joinSep (sep : String) (l : List String) (a : String) (h : a ∈ l) :
    occursIn a (joinSep sep l) := by
  induction l with
  | nil => cases h
  | cons x xs ih =>
    rcases List.mem_cons.mp h with rfl | hmem
    · cases xs with
      | nil => exact occursIn_refl a
      | cons y rest =>
        exact occursIn_append_right _ (occursIn_append_right sep (occursIn_refl a))
    · cases xs with
      | nil => cases hmem
      | cons y rest =>
        exact occursIn_append_left (x ++ sep) (ih hmem)

theorem truthy_resolveRole (kv : List (String × JVal)) :
    truthy (resolveRole kv) = true := by
  unfold resolveRole orJ
  split_ifs <;> first | assumption | rfl

theorem stepMsg_uq_le_cc (st st' : SessState) (m : JVal)
    (h : stepMsg st m = .ok st')
    (inv : st.user_questions ≤ st.chat_count) :
    st'.user_questions ≤ st'.chat_count := by
  cases m <;> simp only [stepMsg] at h
  case obj kv =>
    split at h
    · cases hfc : finalContent kv with
      | error e => rw [hfc] at h; cases h
      | ok c =>
        rw [hfc] at h
        dsimp only at h
        split at h
        · cases h
          unfold stepKeep
          split
          · simpa using Nat.succ_le_succ inv
          · split
            · dsimp only
              split <;> omega
            · exact inv
        · cases h; exact inv
    · cases h; exact inv
  all_goals (cases h; exact inv)

theorem stepMsg_cc_le_twice (st st' : SessState) (m : JVal)
    (h : stepMsg st m = .ok st')
    (inv : st.chat_count + (if st.current_role = some "user" then 1 else 0) ≤
      2 * st.user_questions) :
    st'.chat_count + (if st'.current_role = some "user" then 1 else 0) ≤
      2 * st'.user_questions := by
  cases m <;> simp only [stepMsg] at h
  case obj kv =>
    split at h
    · cases hfc : finalContent kv with
      | error e => rw [hfc] at h; cases h
      | ok c =>
        rw [hfc] at h
        dsimp only at h
        split at h
        · cases h
          unfold stepKeep
          split
          · show st.chat_count + 1 +
                (if (some "user" : Option String) = some "user" then 1 else 0) ≤
                2 * (st.user_questions + 1)
            rw [if_pos rfl]
            split at inv <;> omega
          · split
            · show (if st.current_role = some "user" then st.chat_count + 1
                    else st.chat_count) +
                  (if (some "assistant" : Option String) = some "user" then 1 else 0) ≤
                  2 * st.user_questions
              have hne : (some "assistant" : Option String) ≠ some "user" := by simp
              rw [if_neg hne]
              by_cases hcur : st.current_role = some "user"
              · rw [if_pos hcur]
                rw [if_pos hcur] at inv
                omega
              · rw [if_neg hcur]
                rw [if_neg hcur] at inv
                omega
            · exact inv
        · cases h; exact inv
    · cases h; exact inv
  all_goals (cases h; exact inv)

theorem processMsgs_uq_le_cc (l : List JVal) :
    ∀ st st' : SessState, processMsgs st l = .ok st' →
      st.user_questions ≤ st.chat_count →
      st'.user_questions ≤ st'.chat_count := by
  induction l with
  | nil =>
    intro st st' h inv
    simp only [processMsgs] at h
    cases h; exact inv
  | cons m rest ih =>
    intro st st' h inv
    simp only [processMsgs] at h
    cases hs : stepMsg st m with
    | error e => rw [hs] at h; cases h
    | ok st1 =>
      rw [hs] at h
      exact ih st1 st' h (stepMsg_uq_le_cc st st1 m hs inv)

theorem processMsgs_cc_le_twice (l : List JVal) :
    ∀ st st' : SessState, processMsgs st l = .ok st' →
      st.chat_count + (if st.current_role = some "user" then 1 else 0) ≤
        2 * st.user_questions →
      st'.chat_count + (if st'.current_role = some "user" then 1 else 0) ≤
        2 * st'.user_questions := by
  induction l with
  | nil =>
    intro st st' h inv
    simp only [processMsgs] at h
    cases h; exact inv
  | cons m rest ih =>
    intro st st' h inv
    simp only [processMsgs] at h
    cases hs : stepMsg st m with
    | error e => rw [hs] at h; cases h
    | ok st1 =>
      rw [hs] at h
      exact ih st1 st' h (stepMsg_cc_le_twice st st1 m hs inv)

theorem readRecord_state (data : List (String × JVal)) (sess : Session)
    (h : readRecord data = some sess) :
    ∃ conv st, convIter (pyGetD data "conversation" (.arr [])) = .ok conv ∧
      processConversation conv = .ok st ∧
      sess.user_questions = st.user_questions ∧
      sess.chat_count = st.chat_count := by
  unfold readRecord at h
  cases hci : convIter (pyGetD data "conversation" (.arr [])) with
  | error e => simp only [hci] at h; cases h
  | ok conv =>
    simp only [hci] at h
    cases hpc : processConversation conv with
    | error e => simp only [hpc] at h; cases h
    | ok st =>
      simp only [hpc] at h
      split at h
      · cases h
      · cases h
        exact ⟨conv, st, rfl, hpc, rfl, rfl⟩

theorem sessionHeader_eq_of_ne_current (sess : Session) (mode : String)
    (h : mode ≠ "current") :
    sessionHeader sess mode = pyStr sess.title ++ " " ++ sessionStats sess mode := by
  unfold sessionHeader
  have hb : (mode == "current") = false := by
    simpa using h
  by_cases hall : mode = "all"
  · simp [hall]
  · have hb2 : (mode == "all") = false := by simpa using hall
    simp [hb, hb2]

theorem renderSession_title_occurs (sess : Session) (mode : String) (blk : String)
    (hmode : mode ≠ "current")
    (hr : renderSession sess mode = .ok (some blk)) :
    occursIn (pyStr sess.title) blk := by
  unfold renderSession at hr
  split at hr
  · cases hr
  · cases hsb : sessionBlocks sess.messages with
    | error e => rw [hsb] at hr; cases hr
    | ok blocks =>
      rw [hsb] at hr
      dsimp only at hr
      split at hr
      · cases hr
      · cases hr
        unfold sessionBlockStr
        rw [sessionHeader_eq_of_ne_current sess mode hmode]
        refine occursIn_append_right _ (occursIn_append_right _ (occursIn_append_right _ ?_))
        refine occursIn_append_left _ ?_
        exact occursIn_append_right _ (occursIn_append_right _ (occursIn_refl _))

theorem collectSessions_mem (mode : String) (l : List Session) :
    ∀ (bs : List String) (sess : Session) (blk : String),
      collectSessions mode l = .ok bs → sess ∈ l →
      renderSession sess mode = .ok (some blk) → blk ∈ bs := by
  induction l with
  | nil =>
    intro bs sess blk _ hm _
    cases hm
  | cons s rest ih =>
    intro bs sess blk hc hm hr
    simp only [collectSessions] at hc
    cases hrs : renderSession s mode with
    | error e => rw [hrs] at hc; cases hc
    | ok r =>
      rw [hrs] at hc
      dsimp only at hc
      cases hcs : collectSessions mode rest with
      | error e => rw [hcs] at hc; cases hc
      | ok bs' =>
        rw [hcs] at hc
        dsimp only at hc
        cases hc
        rcases List.mem_cons.mp hm with rfl | hmem
        · rw [hr] at hrs
          cases hrs
          exact List.mem_cons_self _ _
        · have hbs' := ih bs' sess blk hcs hmem hr
          cases r with
          | some b => exact List.mem_cons_of_mem _ hbs'
          | none => exact hbs'

theorem processCodeBlocksJ_str (str : String) :
    processCodeBlocksJ (.s str) = .ok (processCodeBlocks str) := by
  unfold processCodeBlocksJ
  split
  · rfl
  · rename_i hf
    have hstr : str = "" := by
      simpa [truthy] using hf
    subst hstr
    rfl

theorem finalContent_placeholder (kv : List (String × JVal))
    (he : emptyish (resolveContent kv) = .ok true)
    (ha : hasAttachment kv = true)
    (hu : roleIsUser (resolveRole kv) = true) :
    finalContent kv = .ok (.s placeholderText) := by
  unfold finalContent
  rw [he]
  simp [ha, hu]

theorem tmp_not_in_processCandidate (fs : List String) (tmp : String) (o : ExtractOutcome) :
    tmp ∉ processCandidate fs tmp o := by
  cases o <;> simp [processCandidate, osRemoveQuiet, List.mem_filter]

theorem tmp_not_in_after (fs : List String) (t tmp : String) (o : ExtractOutcome)
    (h : tmp ∉ fs) : tmp ∉ processCandidate fs t o := by
  cases o <;> simp_all [processCandidate, osRemoveQuiet, List.mem_filter]

theorem tmp_not_in_fold (cands : List (String × ExtractOutcome)) :
    ∀ (fs : List String) (tmp : String), tmp ∉ fs →
      tmp ∉ readChatHistoryFS cands fs := by
  induction cands with
  | nil =>
    intro fs tmp h
    simpa [readChatHistoryFS] using h
  | cons c rest ih =>
    intro fs tmp h
    obtain ⟨t, o⟩ := c
    simp only [readChatHistoryFS]
    exact ih _ tmp (tmp_not_in_after fs t tmp o h)

theorem tmp_removed_in_scan (cands : List (String × ExtractOutcome)) :
    ∀ (fs : List String) (tmp : String) (o : ExtractOutcome),
      (tmp, o) ∈ cands → tmp ∉ readChatHistoryFS cands fs := by
  induction cands with
  | nil =>
    intro fs tmp o h
    cases h
  | cons c rest ih =>
    intro fs tmp o h
    obtain ⟨t, o'⟩ := c
    simp only [readChatHistoryFS]
    rcases List.mem_cons.mp h with heq | hmem
    · injection heq with h1 h2
      subst h1
      exact tmp_not_in_fold rest _ tmp (tmp_not_in_processCandidate fs tmp o')
    · exact ih _ tmp o hmem

/-!  Claim theorems. -/

/-- C1 counterexample: with a valid mode and an export run that returns no
output file (no sessions found), `main` falls through and the process exits
with status 0, not 1 as the claim states. -/
theorem c1_counterexample :
    mainExitCode ["chat_export.py", "current"] (fun _ => ExportResult.ok none) = 0 ∧
    (mainExitCode ["chat_export.py", "current"] (fun _ => ExportResult.ok none) == 1) = false :=
  ⟨rfl, rfl⟩

/-- C1 (amended): for every valid mode, an export run returning no output
file exits with status 0 (after printing the failure message), an export run
returning a path exits with status 0, and only an unhandled exception during
export exits with status 1. -/
theorem main_exit_zero_on_no_output (mode : String)
    (h : validModes.contains mode = true) :
    mainExitCode ["chat_export.py", mode] (fun _ => ExportResult.ok none) = 0 ∧
    mainExitCode ["chat_export.py", mode] (fun _ => ExportResult.ok (some "out.html")) = 0 ∧
    mainExitCode ["chat_export.py", mode] (fun _ => ExportResult.raised) = 1 := by
  unfold mainExitCode
  simp only [List.getD, List.get?, List.length]
  have hm : mode ∈ validModes := by simpa using h
  simp [hm]

/-- Witness for `main_exit_zero_on_no_output` at mode `current`. -/
theorem main_exit_zero_on_no_output_witness :
    mainExitCode ["chat_export.py", "current"] (fun _ => ExportResult.ok none) = 0 ∧
    mainExitCode ["chat_export.py", "current"] (fun _ => ExportResult.ok (some "out.html")) = 0 ∧
    mainExitCode ["chat_export.py", "current"] (fun _ => ExportResult.raised) = 1 :=
  main_exit_zero_on_no_output "current" rfl

/-- C2 counterexample: on the kept-role sequence `[user, assistant,
assistant]` the counting pass yields `chat_count = 2`, not 3 as the claim
states. -/
theorem c2_counterexample :
    processConversation c2conv = .ok c2state ∧
    (c2state.chat_count == 3) = false :=
  ⟨rfl, rfl⟩

/-- C2 (amended): on `[user, assistant, assistant]` the user message brings
`chat_count` to 1, the first assistant message (cursor = "user") brings it
to 2, and the second assistant message (cursor no longer "user") leaves it
at 2. -/
theorem c2_amended_chat_count_two :
    processConversation [c2m1] =
      .ok ⟨[⟨.s "user", .s "q1"⟩], 1, 1, some "user"⟩ ∧
    processConversation [c2m1, c2m2] =
      .ok ⟨[⟨.s "user", .s "q1"⟩, ⟨.s "assistant", .s "a1"⟩], 1, 2, some "assistant"⟩ ∧
    processConversation c2conv = .ok c2state ∧
    c2state.chat_count = 2 :=
  ⟨rfl, rfl, rfl, rfl⟩

/-- C3 counterexample: the record whose only message has role `"3"` (neither
a user nor an assistant indicator) and non-empty content still produces a
session whose message list contains that message, so the session message
count does include it. -/
theorem c3_counterexample :
    readRecord c3data = some c3sess ∧
    c3sess.messages.length = 1 ∧
    roleIsUser (.s "3") = false ∧
    roleIsAssistant (.s "3") = false :=
  ⟨rfl, rfl, rfl, rfl⟩

/-- C3 (amended): role resolution always produces a truthy value (the final
fallback is the string `'user'` or `'assistant'`), so the `if role:` guard
never drops a message; a dict message is kept if and only if its final
(post-placeholder) content is truthy, whatever its role resolved to —
unknown truthy roles such as `"3"` are kept too (they only bypass the
counters). -/
theorem kept_iff_content_truthy (st : SessState) (kv : List (String × JVal))
    (c : JVal) (hc : finalContent kv = .ok c) :
    truthy (resolveRole kv) = true ∧
    ∃ st', stepMsg st (.obj kv) = .ok st' ∧
      st'.messages =
        (if truthy c then st.messages ++ [⟨resolveRole kv, c⟩] else st.messages) := by
  refine ⟨truthy_resolveRole kv, ?_⟩
  simp only [stepMsg, truthy_resolveRole kv, if_true, hc]
  by_cases htc : truthy c
  · rw [if_pos htc, if_pos htc]
    refine ⟨stepKeep st (resolveRole kv) c, rfl, ?_⟩
    unfold stepKeep
    split_ifs <;> rfl
  · rw [if_neg htc, if_neg htc]
    exact ⟨st, rfl, rfl⟩

/-- Witness for `kept_iff_content_truthy` at the unknown-role message. -/
theorem kept_iff_content_truthy_witness :
    truthy (resolveRole c3kv) = true ∧
    ∃ st', stepMsg initState (.obj c3kv) = .ok st' ∧
      st'.messages =
        (if truthy (.s "hi") then initState.messages ++ [⟨resolveRole c3kv, .s "hi"⟩]
         else initState.messages) :=
  kept_iff_content_truthy initState c3kv (.s "hi") rfl

/-- C4 counterexample: a kept message whose role is the string `"user"`
(resp. `"assistant"`) is NOT emitted as a user (resp. assistant) block by
the transcript renderer — its numeric-only dispatch yields no block at all
— even though the normalizer classes `"user"` as a user indicator. -/
theorem c4_counterexample :
    renderMsg ⟨.s "user", .s "hi"⟩ = .ok none ∧
    renderMsg ⟨.s "assistant", .s "hi"⟩ = .ok none ∧
    roleIsUser (.s "user") = true ∧
    roleIsAssistant (.s "assistant") = true :=
  ⟨rfl, rfl, rfl, rfl⟩

/-- C4 (amended): in the full-transcript renderer a kept message with string
content is emitted as a left-aligned user block exactly when its role equals
`"1"` or `1` (Python `==`), as a right-aligned assistant block exactly when
its role equals `"2"` or `2`, and produces no block otherwise — in
particular the string roles `"user"`/`"assistant"` produce no block; the
content passes through the text-safety transform. -/
theorem render_dispatch_by_numeric_role (m : Message) (str : String)
    (hc : m.content = .s str) :
    (renderRoleIsUser m.role = true →
      renderMsg m =
        .ok (some ("<div class=\"message user-message\">" ++ processCodeBlocks str ++ "</div>"))) ∧
    (renderRoleIsUser m.role = false → renderRoleIsAssistant m.role = true →
      renderMsg m =
        .ok (some ("<div class=\"message assistant-message\">" ++ processCodeBlocks str ++ "</div>"))) ∧
    (renderRoleIsUser m.role = false → renderRoleIsAssistant m.role = false →
      renderMsg m = .ok none) := by
  obtain ⟨r, c⟩ := m
  cases hc
  refine ⟨?_, ?_, ?_⟩
  · intro hu
    simp [renderMsg, hu, pyHasLen, processCodeBlocksJ_str]
  · intro hu ha
    simp [renderMsg, hu, ha, pyHasLen, processCodeBlocksJ_str]
  · intro hu ha
    simp [renderMsg, hu, ha, pyHasLen]

/-- Witness for `render_dispatch_by_numeric_role` at a numeric user role. -/
theorem render_dispatch_by_numeric_role_witness :
    (renderRoleIsUser (Message.mk (.n 1) (.s "hi")).role = true →
      renderMsg ⟨.n 1, .s "hi"⟩ =
        .ok (some ("<div class=\"message user-message\">" ++ processCodeBlocks "hi" ++ "</div>"))) ∧
    (renderRoleIsUser (Message.mk (.n 1) (.s "hi")).role = false →
      renderRoleIsAssistant (Message.mk (.n 1) (.s "hi")).role = true →
      renderMsg ⟨.n 1, .s "hi"⟩ =
        .ok (some ("<div class=\"message assistant-message\">" ++ processCodeBlocks "hi" ++ "</div>"))) ∧
    (renderRoleIsUser (Message.mk (.n 1) (.s "hi")).role = false →
      renderRoleIsAssistant (Message.mk (.n 1) (.s "hi")).role = false →
      renderMsg ⟨.n 1, .s "hi"⟩ = .ok none) :=
  render_dispatch_by_numeric_role ⟨.n 1, .s "hi"⟩ "hi" rfl

set_option maxRecDepth 16384 in
/-- C5 counterexample: for the session titled `a<b` with one user message
`<`, the `all`-mode output contains the raw, unescaped title `a<b` and not
the escaped form `a&lt;b` (while the message content `<` IS escaped to
`&lt;`), and the `current`-mode output does not contain the title at all —
so titles are neither found in every mode nor escaped consistently with
message content. -/
theorem c5_counterexample :
    createHtmlContent [c5sessRaw] "all" =
      .ok (exStringOf (createHtmlContent [c5sessRaw] "all")) ∧
    strContainsB (exStringOf (createHtmlContent [c5sessRaw] "all")) "a&lt;b" = false ∧
    strContainsB (exStringOf (createHtmlContent [c5sessRaw] "all")) "a<b" = true ∧
    strContainsB (exStringOf (createHtmlContent [c5sessRaw] "all")) "&lt;" = true ∧
    createHtmlContent [c5sessRaw] "current" =
      .ok (exStringOf (createHtmlContent [c5sessRaw] "current")) ∧
    strContainsB (exStringOf (createHtmlContent [c5sessRaw] "current")) "a<b" = false ∧
    strContainsB (exStringOf (createHtmlContent [c5sessRaw] "current")) "a&lt;b" = false :=
  ⟨rfl, rfl, rfl, rfl, rfl, rfl, rfl⟩

/-- C5 (amended): for every mode except `current`, every input session that
contributes a rendered block has its title embedded verbatim (raw, without
HTML escaping) in the emitted content; in `current` mode the per-session
header omits the title. -/
theorem title_occurs_in_rendered_output (l : List Session) (mode : String)
    (out : String) (sess : Session) (blk : String)
    (hmode : mode ≠ "current")
    (hout : createHtmlContent l mode = .ok out)
    (hm : sess ∈ l)
    (hr : renderSession sess mode = .ok (some blk)) :
    occursIn (pyStr sess.title) out := by
  unfold createHtmlContent at hout
  cases hcs : collectSessions mode l with
  | error e => rw [hcs] at hout; cases hout
  | ok bs =>
    rw [hcs] at hout
    cases hout
    have hblk : blk ∈ bs := collectSessions_mem mode l bs sess blk hcs hm hr
    have hblk2 :
        blk ∈ (if mode == "all" || mode == "summary"
               then [totalStatsBlock l.length] else []) ++ bs :=
      List.mem_append_right _ hblk
    exact occursIn_trans (renderSession_title_occurs sess mode blk hmode hr)
      (occursIn_joinSep "\n" _ blk hblk2)

/-- Witness for `title_occurs_in_rendered_output`: the title `T` occurs in
the `all`-mode output for its session. -/
theorem title_occurs_in_rendered_output_witness :
    occursIn (pyStr c5wSess.title) (exStringOf (createHtmlContent [c5wSess] "all")) :=
  title_occurs_in_rendered_output [c5wSess] "all"
    (exStringOf (createHtmlContent [c5wSess] "all"))
    c5wSess (optBlockOf (renderSession c5wSess "all"))
    (by decide) rfl (List.mem_singleton.mpr rfl) rfl

/-- C6: a dict message whose resolved content is empty/whitespace-only,
whose record shows an attachment marker, and whose resolved role is a user
indicator, is kept with the fixed attachment-placeholder content and
increments `user_questions` (and `chat_count`) by one. -/
theorem attachment_placeholder_kept (st : SessState) (kv : List (String × JVal))
    (he : emptyish (resolveContent kv) = .ok true)
    (ha : hasAttachment kv = true)
    (hu : roleIsUser (resolveRole kv) = true) :
    ∃ st', stepMsg st (.obj kv) = .ok st' ∧
      st'.messages = st.messages ++ [⟨resolveRole kv, .s placeholderText⟩] ∧
      st'.user_questions = st.user_questions + 1 ∧
      st'.chat_count = st.chat_count + 1 := by
  have hfc : finalContent kv = .ok (.s placeholderText) :=
    finalContent_placeholder kv he ha hu
  have hpt : truthy (.s placeholderText) = true := rfl
  refine ⟨stepKeep st (resolveRole kv) (.s placeholderText), ?_, ?_, ?_, ?_⟩
  · simp [stepMsg, truthy_resolveRole kv, hfc, hpt]
  · unfold stepKeep
    simp [hu]
  · unfold stepKeep
    simp [hu]
  · unfold stepKeep
    simp [hu]

/-- Witness for `attachment_placeholder_kept` at the spec's example record
`{"role": 1, "content": "", "attachments": ["x.png"]}`. -/
theorem attachment_placeholder_kept_witness :
    ∃ st', stepMsg initState (.obj c6kv) = .ok st' ∧
      st'.messages = initState.messages ++ [⟨resolveRole c6kv, .s placeholderText⟩] ∧
      st'.user_questions = initState.user_questions + 1 ∧
      st'.chat_count = initState.chat_count + 1 :=
  attachment_placeholder_kept initState c6kv rfl rfl rfl

/-- C7: every session produced by `read_chat_history` from a raw record
satisfies `user_questions <= chat_count`, since a kept user message
increments both counters and a kept assistant message increments only
`chat_count`. -/
theorem session_chat_count_ge_user_questions (data : List (String × JVal))
    (sess : Session) (h : readRecord data = some sess) :
    sess.user_questions ≤ sess.chat_count := by
  obtain ⟨conv, st, _, hp, hu, hcc⟩ := readRecord_state data sess h
  rw [hu, hcc]
  exact processMsgs_uq_le_cc conv initState st hp (by simp [initState])

/-- Witness for `session_chat_count_ge_user_questions` at a one-user-message
record. -/
theorem session_chat_count_ge_user_questions_witness :
    c7sess.user_questions ≤ c7sess.chat_count :=
  session_chat_count_ge_user_questions c7data c7sess rfl

/-- C8 counterexample: on the single-line message ```` ```print(1)``` ````
the text-safety transform returns the empty string — the line toggles the
code-block state with nothing accumulated, and the end-of-input flush skips
empty accumulations — so the output is not a single preformatted block (it
contains no `<pre>` at all). -/
theorem c8_counterexample :
    processCodeBlocks "```print(1)```" = "" ∧
    strContainsB (processCodeBlocks "```print(1)```") "<pre>" = false :=
  ⟨rfl, rfl⟩

/-- C8 (amended): the single-line message ```` ```print(1)``` ```` is
consumed entirely as an opening fence and produces empty output (no
preformatted block, but also no raw backticks), while the newline-fenced
variant produces exactly one preformatted block with no raw triple-backtick
markers. -/
theorem c8_amended_code_fence_behavior :
    processCodeBlocks "```print(1)```" = "" ∧
    strContainsB (processCodeBlocks "```print(1)```") "```" = false ∧
    processCodeBlocks "```\nprint(1)\n```" = "<pre><code>print(1)\n</code></pre>" ∧
    strContainsB (processCodeBlocks "```\nprint(1)\n```") "```" = false :=
  ⟨rfl, rfl, rfl, rfl⟩

/-- C9: on every exit path of a candidate's extraction pass (success,
malformed record, unreadable database, or even a failed copy) the `finally`
block removes the scratch duplicate, so the scratch file is absent right
after its candidate is processed and absent from the working directory after
the whole scan. -/
theorem scratch_file_always_removed (fs : List String) (tmp : String)
    (o : ExtractOutcome) (cands : List (String × ExtractOutcome))
    (h : (tmp, o) ∈ cands) :
    tmp ∉ processCandidate fs tmp o ∧ tmp ∉ readChatHistoryFS cands fs :=
  ⟨tmp_not_in_processCandidate fs tmp o, tmp_removed_in_scan cands fs tmp o h⟩

/-- Witness for `scratch_file_always_removed` on a one-candidate scan. -/
theorem scratch_file_always_removed_witness :
    "temp_state_0.vscdb" ∉
      processCandidate ["state.vscdb"] "temp_state_0.vscdb" ExtractOutcome.success ∧
    "temp_state_0.vscdb" ∉
      readChatHistoryFS [("temp_state_0.vscdb", ExtractOutcome.success)] ["state.vscdb"] :=
  scratch_file_always_removed ["state.vscdb"] "temp_state_0.vscdb"
    ExtractOutcome.success [("temp_state_0.vscdb", ExtractOutcome.success)]
    (List.mem_singleton.mpr rfl)

/-- C10: every session produced by `read_chat_history` satisfies
`chat_count <= 2 * user_questions`: an assistant increment consumes the
cursor set by a preceding user message, so each user message enables at most
one assistant increment. -/
theorem session_chat_count_le_twice_user_questions (data : List (String × JVal))
    (sess : Session) (h : readRecord data = some sess) :
    sess.chat_count ≤ 2 * sess.user_questions := by
  obtain ⟨conv, st, _, hp, hu, hcc⟩ := readRecord_state data sess h
  rw [hu, hcc]
  have hfin := processMsgs_cc_le_twice conv initState st hp (by simp [initState])
  split at hfin <;> omega

/-- Witness for `session_chat_count_le_twice_user_questions` at a
user-then-assistant record. -/
theorem session_chat_count_le_twice_user_questions_witness :
    c10sess.chat_count ≤ 2 * c10sess.user_questions :=
  session_chat_count_le_twice_user_questions c10data c10sess rfl
